import Mathlib

/-!
Verification of the pattern-detection core of the Artemesia stock-analysis
program (files `data_fetcher.py` and `main.py`) against its specification.

The embedding below translates the algorithmic part of the two Python files:
the `PatternDetector` class (its `available_patterns` list, its
`detect_patterns` dispatcher in each of the two variants, and
`detect_head_and_shoulders`) and the `calculate_gann_levels` function.
Prices are rationals; a pandas `NaN` (which arises when `.max()`/`.min()`
is taken over an empty column) is modelled as `none` in `Option ℚ`, with
arithmetic propagating `none` exactly as float arithmetic propagates `NaN`.
A Python `AttributeError` raised by dispatching to a method that does not
exist on the class is modelled as `Except.error` carrying the missing
method's name.
-/

/-- One price bar: the timestamp (the pandas index value) and the four
price columns `Open`, `High`, `Low`, `Close`. -/
structure Bar where
  ts : ℕ
  openP : ℚ
  high : ℚ
  low : ℚ
  close : ℚ
  deriving DecidableEq, Repr

/-- Default bar used only as the out-of-range default of `List.getD`;
every access in the detectors is guarded to be in range. -/
def defBar : Bar := ⟨0, 0, 0, 0, 0⟩

/-- The value `data['High'][i]` / `data['High'].iloc[i]`. -/
def highAt (data : List Bar) (i : ℕ) : ℚ := (data.getD i defBar).high

/-- The value `data['Low'][i]` / `data['Low'].iloc[i]`. -/
def lowAt (data : List Bar) (i : ℕ) : ℚ := (data.getD i defBar).low

/-- The value `data.index[i]`. -/
def tsAt (data : List Bar) (i : ℕ) : ℕ := (data.getD i defBar).ts

/-- One detected pattern occurrence, the Python tuple
`(data.index[i], pattern_name, price)`. -/
structure PMatch where
  ts : ℕ
  name : String
  price : ℚ
  deriving DecidableEq, Repr

/-- The class attribute `PatternDetector.available_patterns`
(identical in both source files). -/
def available_patterns : List String :=
  [ "Head and Shoulders",
    "Inverted Head and Shoulders",
    "Double Top",
    "Double Bottom",
    "Bullish Engulfing",
    "Bearish Engulfing",
    "Doji",
    "Hammer",
    "Shooting Star",
    "Morning Star",
    "Evening Star" ]

/-- One iteration of the loop body of `detect_head_and_shoulders`: at index
`i` (guarded to lie in Python's `range(2, len(data) - 2)`) the bar matches
iff `High[i-2] < High[i-1] < High[i]` (left shoulder), `High[i-1] > High[i+1]`
(head) and `High[i+1] < High[i+2] < High[i]` (right shoulder); on a match the
tuple `(data.index[i], "Head and Shoulders", data['High'][i])` is appended. -/
def hs_scan (data : List Bar) (i : ℕ) : Option PMatch :=
  if 2 ≤ i ∧ i + 2 < data.length ∧
      (highAt data (i - 2) < highAt data (i - 1) ∧ highAt data (i - 1) < highAt data i) ∧
      highAt data (i - 1) > highAt data (i + 1) ∧
      (highAt data (i + 1) < highAt data (i + 2) ∧ highAt data (i + 2) < highAt data i)
  then some ⟨tsAt data i, "Head and Shoulders", highAt data i⟩
  else none

/-- The method `detect_head_and_shoulders` (same body in both source files):
`for i in range(2, len(data) - 2)` appending a tuple on each match. -/
def detect_head_and_shoulders (data : List Bar) : List PMatch :=
  (List.range data.length).filterMap (hs_scan data)

/-- Modelled from the spec: the method `detect_inverted_head_and_shoulders`
is dispatched by `detect_patterns` in `data_fetcher.py` but its body is
absent from the source (the file says "similar updates for other pattern
detection methods"). Per the spec it is the mirror test on Lows with all
inequalities of the Head and Shoulders rule reversed at index `i`, anchor
price the trough Low, anchor timestamp bar `i`'s timestamp. -/
def ihs_scan (data : List Bar) (i : ℕ) : Option PMatch :=
  if 2 ≤ i ∧ i + 2 < data.length ∧
      (lowAt data (i - 2) > lowAt data (i - 1) ∧ lowAt data (i - 1) > lowAt data i) ∧
      lowAt data (i - 1) < lowAt data (i + 1) ∧
      (lowAt data (i + 1) > lowAt data (i + 2) ∧ lowAt data (i + 2) > lowAt data i)
  then some ⟨tsAt data i, "Inverted Head and Shoulders", lowAt data i⟩
  else none

/-- Modelled from the spec: the scan of the missing
`detect_inverted_head_and_shoulders` over the same index range as the Head
and Shoulders detector (lookback 2, lookahead 2). -/
def detect_inverted_head_and_shoulders (data : List Bar) : List PMatch :=
  (List.range data.length).filterMap (ihs_scan data)

/-- The method `detect_patterns` of `main.py`: a single selected pattern;
only the `"Head and Shoulders"` branch exists, every other string falls
through and the initial empty `patterns` list is returned. -/
def detect_patterns_main (data : List Bar) (selected_pattern : String) : List PMatch :=
  if selected_pattern = "Head and Shoulders" then detect_head_and_shoulders data else []

/-- One dispatch step of `detect_patterns` in `data_fetcher.py`: the
`if`/`elif` chain over the selected pattern name. Only
`detect_head_and_shoulders` exists on the class; every other branch calls a
method that is never defined, which raises `AttributeError` at runtime
(modelled as `Except.error` with the missing method's name). A string that
matches no branch adds no entry at all (`none`). -/
def dispatch_fetcher (data : List Bar) (p : String) : Option (Except String (List PMatch)) :=
  if p = "Head and Shoulders" then some (Except.ok (detect_head_and_shoulders data))
  else if p = "Inverted Head and Shoulders" then
    some (Except.error "detect_inverted_head_and_shoulders")
  else if p = "Double Top" then some (Except.error "detect_double_top")
  else if p = "Double Bottom" then some (Except.error "detect_double_bottom")
  else if p = "Bullish Engulfing" then some (Except.error "detect_bullish_engulfing")
  else if p = "Bearish Engulfing" then some (Except.error "detect_bearish_engulfing")
  else if p = "Doji" then some (Except.error "detect_doji")
  else if p = "Hammer" then some (Except.error "detect_hammer")
  else if p = "Shooting Star" then some (Except.error "detect_shooting_star")
  else if p = "Morning Star" then some (Except.error "detect_morning_star")
  else if p = "Evening Star" then some (Except.error "detect_evening_star")
  else none

/-- The method `detect_patterns` of `data_fetcher.py`: iterates the selected
patterns in order, building the result dict (modelled as an association
list in insertion order); the first `AttributeError` aborts the whole call. -/
def detect_patterns_fetcher (data : List Bar) :
    List String → Except String (List (String × List PMatch))
  | [] => Except.ok []
  | p :: ps =>
    match dispatch_fetcher data p with
    | none => detect_patterns_fetcher data ps
    | some (Except.error e) => Except.error e
    | some (Except.ok v) =>
      match detect_patterns_fetcher data ps with
      | Except.ok rest => Except.ok ((p, v) :: rest)
      | Except.error e => Except.error e

/-- The running minimum `data['Low'].min()` of a pandas column: `none`
(NaN) on an empty column. -/
def seriesMin : List ℚ → Option ℚ
  | [] => none
  | x :: xs => some (xs.foldl min x)

/-- The running maximum `data['High'].max()` of a pandas column: `none`
(NaN) on an empty column. -/
def seriesMax : List ℚ → Option ℚ
  | [] => none
  | x :: xs => some (xs.foldl max x)

/-- NaN-propagating binary arithmetic on prices. -/
def nlift (f : ℚ → ℚ → ℚ) : Option ℚ → Option ℚ → Option ℚ
  | some a, some b => some (f a b)
  | _, _ => none

/-- The function `calculate_gann_levels` of `data_fetcher.py`:
`[min_price + (i * range_price / 8) for i in range(1, 9)]` with
`max_price = data['High'].max()`, `min_price = data['Low'].min()`,
`range_price = max_price - min_price`. -/
def calculate_gann_levels (data : List Bar) : List (Option ℚ) :=
  let max_price := seriesMax (data.map Bar.high)
  let min_price := seriesMin (data.map Bar.low)
  let range_price := nlift (· - ·) max_price min_price
  (List.range' 1 8).map (fun i : ℕ =>
    nlift (· + ·) min_price
      (nlift (· / ·) (nlift (· * ·) (some ((i : ℚ))) range_price) (some 8)))

/-- Strict increase on NaN-capable prices: both values present and ordered. -/
def oLt : Option ℚ → Option ℚ → Prop
  | some x, some y => x < y
  | _, _ => False

instance (a b : Option ℚ) : Decidable (oLt a b) :=
  match a, b with
  | some x, some y => inferInstanceAs (Decidable (x < y))
  | some _, none => inferInstanceAs (Decidable False)
  | none, _ => inferInstanceAs (Decidable False)

/-- The 5-bar series of the spec's Head and Shoulders example: Highs
`[10, 12, 15, 13, 11]` at indices 0 through 4 (all four prices of a bar set
to the High, which satisfies the Bar invariant). -/
def hsExample : List Bar :=
  [⟨0, 10, 10, 10, 10⟩, ⟨1, 12, 12, 12, 12⟩, ⟨2, 15, 15, 15, 15⟩,
   ⟨3, 13, 13, 13, 13⟩, ⟨4, 11, 11, 11, 11⟩]

/-- The 5-bar series of the spec's Inverted Head and Shoulders example:
Lows `[15, 13, 10, 12, 14]` at indices 0 through 4. -/
def ihsExample : List Bar :=
  [⟨0, 15, 15, 15, 15⟩, ⟨1, 13, 13, 13, 13⟩, ⟨2, 10, 10, 10, 10⟩,
   ⟨3, 12, 12, 12, 12⟩, ⟨4, 14, 14, 14, 14⟩]

/-- A one-bar series whose Lows/Highs span exactly `[100, 200]`. -/
def spanExample : List Bar := [⟨0, 150, 200, 100, 150⟩]

/-- A one-bar series with all four prices equal: min Low = max High. -/
def flatExample : List Bar := [⟨0, 100, 100, 100, 100⟩]

/-- A 5-bar series with Highs `[1, 3, 5, 2, 4]`, which does satisfy the Head
and Shoulders test at index 2. -/
def hsPositive : List Bar :=
  [⟨0, 1, 1, 1, 1⟩, ⟨1, 3, 3, 3, 3⟩, ⟨2, 5, 5, 5, 5⟩,
   ⟨3, 2, 2, 2, 2⟩, ⟨4, 4, 4, 4, 4⟩]

/-! Helper lemmas about the scans. -/

/-- A successful scan at index `i` carries bar `i`'s timestamp and lies in
the window `2 ≤ i`, `i + 2 < len`. -/
lemma hs_scan_some {data : List Bar} {i : ℕ} {m : PMatch} (h : hs_scan data i = some m) :
    m.ts = tsAt data i ∧ 2 ≤ i ∧ i + 2 < data.length := by
  unfold hs_scan at h
  split_ifs at h with hc
  · cases h
    exact ⟨rfl, hc.1, hc.2.1⟩

/-- A successful inverted scan at index `i` carries bar `i`'s timestamp and
lies in the window. -/
lemma ihs_scan_some {data : List Bar} {i : ℕ} {m : PMatch} (h : ihs_scan data i = some m) :
    m.ts = tsAt data i ∧ 2 ≤ i ∧ i + 2 < data.length := by
  unfold ihs_scan at h
  split_ifs at h with hc
  · cases h
    exact ⟨rfl, hc.1, hc.2.1⟩

/-- C1: for every series of at least 5 bars and every index `i` with
`2 ≤ i ≤ len − 3`, the Head and Shoulders rule produces a match at `i` iff
`High[i−2] < High[i−1] < High[i]`, `High[i−1] > High[i+1]` and
`High[i+1] < High[i+2] < High[i]`; when it matches, the match's anchor price
is `High[i]`, its anchor timestamp is bar `i`'s timestamp, and the match is
collected in the detector's result list. -/
theorem hs_rule_iff (data : List Bar) (hlen : 5 ≤ data.length)
    (i : ℕ) (h2 : 2 ≤ i) (h3 : i ≤ data.length - 3) :
    ((∃ m, hs_scan data i = some m) ↔
      ((highAt data (i - 2) < highAt data (i - 1) ∧ highAt data (i - 1) < highAt data i) ∧
        highAt data (i - 1) > highAt data (i + 1) ∧
        (highAt data (i + 1) < highAt data (i + 2) ∧ highAt data (i + 2) < highAt data i))) ∧
    (∀ m, hs_scan data i = some m →
      m.price = highAt data i ∧ m.ts = tsAt data i ∧ m ∈ detect_head_and_shoulders data) := by
  have hi2 : i + 2 < data.length := by omega
  constructor
  · constructor
    · rintro ⟨m, hm⟩
      unfold hs_scan at hm
      split_ifs at hm with hc
      · exact hc.2.2
    · intro hc
      refine ⟨⟨tsAt data i, "Head and Shoulders", highAt data i⟩, ?_⟩
      unfold hs_scan
      rw [if_pos ⟨h2, hi2, hc⟩]
  · intro m hm
    have hmem : m ∈ detect_head_and_shoulders data := by
      unfold detect_head_and_shoulders
      exact List.mem_filterMap.mpr ⟨i, List.mem_range.mpr (by omega), hm⟩
    unfold hs_scan at hm
    split_ifs at hm with hc
    · cases hm
      exact ⟨rfl, rfl, hmem⟩

/-- Witness for C1: on Highs `[1, 3, 5, 2, 4]` the rule matches at index 2. -/
theorem hs_rule_iff_witness : ∃ m, hs_scan hsPositive 2 = some m :=
  (hs_rule_iff hsPositive (by decide) 2 (by decide) (by decide)).1.mpr (by decide)

/-- C2 counterexample: on the spec's example Highs `[10, 12, 15, 13, 11]`
detection with only Head and Shoulders requested does NOT yield exactly one
match — the head condition `High[1] > High[3]` is `12 > 13`, false, and the
right-shoulder condition `High[3] < High[4]` is `13 < 11`, false. -/
theorem hs_example_not_one_match :
    (detect_patterns_main hsExample "Head and Shoulders").length ≠ 1 := by decide

/-- C2 amended: on Highs `[10, 12, 15, 13, 11]` detection with only Head
and Shoulders requested yields no match at all, in both source variants. -/
theorem hs_example_no_match :
    detect_patterns_main hsExample "Head and Shoulders" = [] ∧
    detect_patterns_fetcher hsExample ["Head and Shoulders"] =
      Except.ok [("Head and Shoulders", [])] := ⟨by decide, by rfl⟩

/-- C3 counterexample: on the spec's example Lows `[15, 13, 10, 12, 14]`
the mirrored rule (all Head and Shoulders inequalities reversed, on Lows)
does NOT yield exactly one match — the mirrored head condition
`Low[1] < Low[3]` is `13 < 12`, false, and the mirrored right-shoulder
condition `Low[3] > Low[4]` is `12 > 14`, false. -/
theorem ihs_example_not_one_match :
    (detect_inverted_head_and_shoulders ihsExample).length ≠ 1 := by decide

/-- C3 amended: on Lows `[15, 13, 10, 12, 14]` the mirrored Inverted Head
and Shoulders rule yields no match at all. -/
theorem ihs_example_no_match :
    detect_inverted_head_and_shoulders ihsExample = [] := by decide

/-- C8: on every series with fewer than 5 bars (fewer than
lookback + lookahead + 1) the Head and Shoulders rule and the mirrored
Inverted Head and Shoulders rule never match, and `detect_patterns` of
`main.py` returns no match for any requested kind. -/
theorem short_series_no_match (data : List Bar) (hlen : data.length < 5) :
    detect_head_and_shoulders data = [] ∧
    detect_inverted_head_and_shoulders data = [] ∧
    ∀ p : String, detect_patterns_main data p = [] := by
  have hhs : detect_head_and_shoulders data = [] := by
    unfold detect_head_and_shoulders
    rw [List.filterMap_eq_nil_iff]
    intro i hi
    unfold hs_scan
    rw [if_neg]
    rintro ⟨hA, hB, -⟩
    omega
  have hihs : detect_inverted_head_and_shoulders data = [] := by
    unfold detect_inverted_head_and_shoulders
    rw [List.filterMap_eq_nil_iff]
    intro i hi
    unfold ihs_scan
    rw [if_neg]
    rintro ⟨hA, hB, -⟩
    omega
  refine ⟨hhs, hihs, ?_⟩
  intro p
  unfold detect_patterns_main
  split_ifs
  · exact hhs
  · rfl

/-- Witness for C8: the empty series produces no match for either rule nor
for any kind via `main.py`'s dispatcher. -/
theorem short_series_no_match_witness :
    detect_head_and_shoulders [] = [] ∧ detect_inverted_head_and_shoulders [] = [] ∧
    detect_patterns_main [] "Doji" = [] :=
  ⟨(short_series_no_match [] (by decide)).1, (short_series_no_match [] (by decide)).2.1,
    (short_series_no_match [] (by decide)).2.2 "Doji"⟩

/-- The left fold of `min` is a lower bound of its start value and of every
element folded over. -/
lemma foldl_min_le (xs : List ℚ) (a : ℚ) :
    xs.foldl min a ≤ a ∧ ∀ x ∈ xs, xs.foldl min a ≤ x := by
  induction xs generalizing a with
  | nil => simp
  | cons y ys ih =>
    refine ⟨le_trans (ih (min a y)).1 (min_le_left a y), ?_⟩
    intro x hx
    rcases List.mem_cons.mp hx with rfl | hx
    · exact le_trans (ih (min a x)).1 (min_le_right a x)
    · exact (ih (min a y)).2 x hx

/-- The left fold of `max` is an upper bound of its start value and of every
element folded over. -/
lemma foldl_max_ge (xs : List ℚ) (a : ℚ) :
    a ≤ xs.foldl max a ∧ ∀ x ∈ xs, x ≤ xs.foldl max a := by
  induction xs generalizing a with
  | nil => simp
  | cons y ys ih =>
    refine ⟨le_trans (le_max_left a y) (ih (max a y)).1, ?_⟩
    intro x hx
    rcases List.mem_cons.mp hx with rfl | hx
    · exact le_trans (le_max_right a x) (ih (max a x)).1
    · exact (ih (max a y)).2 x hx

/-- On a non-empty series the computed min and max exist and the Gann level
list is exactly the 8-point formula over them. -/
lemma gann_formula (data : List Bar) (hne : data ≠ []) :
    ∃ m M : ℚ, seriesMin (data.map Bar.low) = some m ∧
      seriesMax (data.map Bar.high) = some M ∧
      (∀ x ∈ data.map Bar.low, m ≤ x) ∧ (∀ x ∈ data.map Bar.high, x ≤ M) ∧
      calculate_gann_levels data =
        (List.range' 1 8).map (fun i : ℕ => some (m + (i : ℚ) * (M - m) / 8)) := by
  obtain ⟨b, rest, rfl⟩ := List.exists_cons_of_ne_nil hne
  refine ⟨(rest.map Bar.low).foldl min b.low, (rest.map Bar.high).foldl max b.high,
    by simp [seriesMin], by simp [seriesMax], ?_, ?_, ?_⟩
  · intro x hx
    rcases List.mem_cons.mp hx with rfl | hx
    · exact (foldl_min_le (rest.map Bar.low) b.low).1
    · exact (foldl_min_le (rest.map Bar.low) b.low).2 x hx
  · intro x hx
    rcases List.mem_cons.mp hx with rfl | hx
    · exact (foldl_max_ge (rest.map Bar.high) b.high).1
    · exact (foldl_max_ge (rest.map Bar.high) b.high).2 x hx
  · simp [calculate_gann_levels, seriesMin, seriesMax, nlift]

/-- C4: on every non-empty series the support-level calculation returns
exactly 8 levels, `level_i = min Low + i · (max High − min Low) / 8` for
`i = 1..8`; in particular on a series spanning `[100, 200]` it returns
exactly `112.5, 125, 137.5, 150, 162.5, 175, 187.5, 200`. -/
theorem gann_levels_spec :
    (∀ data : List Bar, data ≠ [] →
      ∃ m M : ℚ, seriesMin (data.map Bar.low) = some m ∧
        seriesMax (data.map Bar.high) = some M ∧
        (∀ x ∈ data.map Bar.low, m ≤ x) ∧ (∀ x ∈ data.map Bar.high, x ≤ M) ∧
        (calculate_gann_levels data).length = 8 ∧
        calculate_gann_levels data =
          (List.range' 1 8).map (fun i : ℕ => some (m + (i : ℚ) * (M - m) / 8))) ∧
    calculate_gann_levels spanExample =
      [some (225 / 2 : ℚ), some 125, some (275 / 2), some 150, some (325 / 2),
        some 175, some (375 / 2), some 200] := by
  constructor
  · intro data hne
    obtain ⟨m, M, h1, h2, h3, h4, h5⟩ := gann_formula data hne
    exact ⟨m, M, h1, h2, h3, h4, by simp [h5], h5⟩
  · show calculate_gann_levels spanExample = _
    simp only [calculate_gann_levels, spanExample, seriesMin, seriesMax, nlift,
      List.map_cons, List.map_nil, List.foldl_nil, List.range']
    norm_num

/-- Witness for C4: the universal part instantiated at the `[100, 200]`
series. -/
theorem gann_levels_spec_witness :
    ∃ m M : ℚ, seriesMin (spanExample.map Bar.low) = some m ∧
      seriesMax (spanExample.map Bar.high) = some M ∧
      (∀ x ∈ spanExample.map Bar.low, m ≤ x) ∧
      (∀ x ∈ spanExample.map Bar.high, x ≤ M) ∧
      (calculate_gann_levels spanExample).length = 8 ∧
      calculate_gann_levels spanExample =
        (List.range' 1 8).map (fun i : ℕ => some (m + (i : ℚ) * (M - m) / 8)) :=
  gann_levels_spec.1 spanExample (by decide)

/-- C5 counterexample: on the empty series neither detection nor the level
calculation fails — detection returns an empty result in both variants and
the level calculation returns 8 NaN levels; no `EmptySeries` error exists
anywhere in the code. -/
theorem empty_series_no_error :
    detect_patterns_main [] "Head and Shoulders" = [] ∧
    detect_patterns_fetcher [] ["Head and Shoulders"] =
      Except.ok [("Head and Shoulders", [])] ∧
    calculate_gann_levels [] = List.replicate 8 none := ⟨by decide, by rfl, by decide⟩

/-- C5 amended: on the series with zero bars detection returns an empty
result for every requested kind in the `main.py` variant and an empty match
list for Head and Shoulders in the `data_fetcher.py` variant, and the
support-level calculation returns 8 NaN levels; neither operation signals
an `EmptySeries` error. -/
theorem empty_series_behavior :
    (∀ p : String, detect_patterns_main [] p = []) ∧
    detect_patterns_fetcher [] ["Head and Shoulders"] =
      Except.ok [("Head and Shoulders", [])] ∧
    calculate_gann_levels [] = List.replicate 8 none := by
  refine ⟨?_, by rfl, by decide⟩
  intro p
  unfold detect_patterns_main
  split_ifs
  · rfl
  · rfl

/-- C6 counterexample: with an empty requested set, or with a kind absent
from the catalog, detection returns an ordinary empty result instead of
failing with `InvalidRequest`. -/
theorem no_invalid_request_cex :
    detect_patterns_fetcher hsExample [] = Except.ok [] ∧
    detect_patterns_fetcher hsExample ["Nonsense"] = Except.ok [] ∧
    detect_patterns_main hsExample "Nonsense" = [] := ⟨by rfl, by rfl, by decide⟩

/-- C6 amended: detection never fails with `InvalidRequest`: an empty
requested set yields an empty result, a kind absent from the catalog is
silently skipped in the `data_fetcher.py` variant, and every kind other
than Head and Shoulders yields an empty list in the `main.py` variant. -/
theorem no_invalid_request (data : List Bar) :
    detect_patterns_fetcher data [] = Except.ok [] ∧
    (∀ p : String, p ∉ available_patterns → detect_patterns_fetcher data [p] = Except.ok []) ∧
    (∀ p : String, p ≠ "Head and Shoulders" → detect_patterns_main data p = []) := by
  refine ⟨rfl, ?_, ?_⟩
  · intro p hp
    simp only [available_patterns, List.mem_cons, List.not_mem_nil, or_false, not_or] at hp
    obtain ⟨h1, h2, h3, h4, h5, h6, h7, h8, h9, h10, h11⟩ := hp
    have hd : dispatch_fetcher data p = none := by
      unfold dispatch_fetcher
      simp [h1, h2, h3, h4, h5, h6, h7, h8, h9, h10, h11]
    simp [detect_patterns_fetcher, hd]
  · intro p hp
    simp [detect_patterns_main, hp]

/-- Witness for C6 amended at concrete inputs. -/
theorem no_invalid_request_witness :
    detect_patterns_fetcher [] [] = Except.ok [] ∧
    detect_patterns_fetcher [] ["Nonsense"] = Except.ok [] ∧
    detect_patterns_main [] "Doji" = [] :=
  ⟨(no_invalid_request []).1,
    (no_invalid_request []).2.1 "Nonsense" (by decide),
    (no_invalid_request []).2.2 "Doji" (by decide)⟩

/-- C7 counterexample: on a non-empty series whose min Low equals its max
High (one bar with all prices 100) the 8 levels are all equal to 100, so
the sequence is not strictly increasing and no level is strictly greater
than the minimum Low. -/
theorem gann_flat_cex :
    calculate_gann_levels flatExample = List.replicate 8 (some (100 : ℚ)) ∧
    seriesMin (flatExample.map Bar.low) = some 100 ∧
    seriesMax (flatExample.map Bar.high) = some 100 ∧
    ¬ List.Pairwise oLt (calculate_gann_levels flatExample) ∧
    ¬ ∀ l ∈ calculate_gann_levels flatExample, oLt (some 100) l := by
  have hlv : calculate_gann_levels flatExample = List.replicate 8 (some (100 : ℚ)) := by
    simp only [calculate_gann_levels, flatExample, seriesMin, seriesMax, nlift,
      List.map_cons, List.map_nil, List.foldl_nil, List.range']
    norm_num
    rfl
  refine ⟨hlv, rfl, rfl, ?_, ?_⟩
  · rw [hlv]
    intro h
    have h1 := List.rel_of_pairwise_cons h (by simp [List.replicate] : some (100 : ℚ) ∈ _)
    simp [oLt] at h1
  · rw [hlv]
    intro h
    have h1 := h (some 100) (by simp [List.replicate])
    simp [oLt] at h1

/-- C7 amended: on every series whose computed min Low is strictly below
its computed max High, the 8 support levels are strictly increasing, every
level is strictly greater than the min Low, and the last level equals the
max High. -/
theorem gann_monotone (data : List Bar) (m M : ℚ)
    (hm : seriesMin (data.map Bar.low) = some m)
    (hM : seriesMax (data.map Bar.high) = some M)
    (hlt : m < M) :
    List.Pairwise oLt (calculate_gann_levels data) ∧
    (∀ l ∈ calculate_gann_levels data, oLt (some m) l) ∧
    (calculate_gann_levels data).getLast? = some (some M) := by
  have hlv : calculate_gann_levels data =
      (List.range' 1 8).map (fun i : ℕ => some (m + (i : ℚ) * (M - m) / 8)) := by
    simp [calculate_gann_levels, hm, hM, nlift]
  have hpos : (0 : ℚ) < (M - m) / 8 := div_pos (sub_pos.mpr hlt) (by norm_num)
  refine ⟨?_, ?_, ?_⟩
  · rw [hlv, List.pairwise_map]
    refine (List.pairwise_lt_range' 1 8).imp ?_
    intro i j hij
    show oLt _ _
    simp only [oLt]
    have hc : (i : ℚ) < (j : ℚ) := by exact_mod_cast hij
    have := mul_lt_mul_of_pos_right hc hpos
    rw [mul_div_assoc, mul_div_assoc]
    linarith
  · rw [hlv]
    intro l hl
    rw [List.mem_map] at hl
    obtain ⟨i, hi, rfl⟩ := hl
    have hi1 : 1 ≤ i := (List.mem_range'_1.mp hi).1
    simp only [oLt]
    have hip : (0 : ℚ) < (i : ℚ) := by exact_mod_cast hi1
    have := mul_lt_mul_of_pos_right hip hpos
    rw [mul_div_assoc]
    nlinarith
  · rw [hlv, show List.range' 1 8 = [1, 2, 3, 4, 5, 6, 7, 8] from rfl]
    have h1 : (List.map (fun i : ℕ => some (m + (i : ℚ) * (M - m) / 8))
        [1, 2, 3, 4, 5, 6, 7, 8]).getLast? = some (some (m + ((8 : ℕ) : ℚ) * (M - m) / 8)) := rfl
    rw [h1]
    have h2 : ((8 : ℕ) : ℚ) = 8 := by norm_num
    rw [h2]
    have h3 : m + (8 : ℚ) * (M - m) / 8 = M := by ring
    rw [h3]

/-- Witness for C7 amended: on the `[100, 200]` series the levels are
strictly increasing, above 100, and end at 200. -/
theorem gann_monotone_witness :
    List.Pairwise oLt (calculate_gann_levels spanExample) ∧
    (∀ l ∈ calculate_gann_levels spanExample, oLt (some 100) l) ∧
    (calculate_gann_levels spanExample).getLast? = some (some 200) :=
  gann_monotone spanExample 100 200 (by rfl) (by rfl) (by norm_num)

/-- C9: on every series with strictly increasing timestamps, for every
requested kind the match list is ordered non-decreasingly by anchor
timestamp and no two matches of the same kind share an anchor timestamp —
for every kind dispatched by `main.py`'s `detect_patterns` and for the
spec-modelled Inverted Head and Shoulders rule. -/
theorem matches_sorted (data : List Bar)
    (hts : ∀ i j : ℕ, i < j → j < data.length → tsAt data i < tsAt data j) :
    (∀ p : String,
      List.Pairwise (fun a b : PMatch => a.ts ≤ b.ts) (detect_patterns_main data p) ∧
      List.Pairwise (fun a b : PMatch => a.ts ≠ b.ts) (detect_patterns_main data p)) ∧
    List.Pairwise (fun a b : PMatch => a.ts ≤ b.ts) (detect_inverted_head_and_shoulders data) ∧
    List.Pairwise (fun a b : PMatch => a.ts ≠ b.ts) (detect_inverted_head_and_shoulders data) := by
  have key : List.Pairwise (fun a b : PMatch => a.ts < b.ts)
      (detect_head_and_shoulders data) := by
    unfold detect_head_and_shoulders
    rw [List.pairwise_filterMap]
    refine (List.pairwise_lt_range data.length).imp ?_
    intro i j hij b hb c hc
    rw [Option.mem_def] at hb hc
    obtain ⟨hbts, -, -⟩ := hs_scan_some hb
    obtain ⟨hcts, -, hcl⟩ := hs_scan_some hc
    rw [hbts, hcts]
    exact hts i j hij (by omega)
  have key2 : List.Pairwise (fun a b : PMatch => a.ts < b.ts)
      (detect_inverted_head_and_shoulders data) := by
    unfold detect_inverted_head_and_shoulders
    rw [List.pairwise_filterMap]
    refine (List.pairwise_lt_range data.length).imp ?_
    intro i j hij b hb c hc
    rw [Option.mem_def] at hb hc
    obtain ⟨hbts, -, -⟩ := ihs_scan_some hb
    obtain ⟨hcts, -, hcl⟩ := ihs_scan_some hc
    rw [hbts, hcts]
    exact hts i j hij (by omega)
  refine ⟨?_, key2.imp le_of_lt, key2.imp ne_of_lt⟩
  intro p
  unfold detect_patterns_main
  split_ifs
  · exact ⟨key.imp le_of_lt, key.imp ne_of_lt⟩
  · exact ⟨List.Pairwise.nil, List.Pairwise.nil⟩

/-- Witness for C9 at the series with timestamps 0..4 and the Head and
Shoulders kind. -/
theorem matches_sorted_witness :
    (List.Pairwise (fun a b : PMatch => a.ts ≤ b.ts)
        (detect_patterns_main hsPositive "Head and Shoulders") ∧
      List.Pairwise (fun a b : PMatch => a.ts ≠ b.ts)
        (detect_patterns_main hsPositive "Head and Shoulders")) ∧
    List.Pairwise (fun a b : PMatch => a.ts ≤ b.ts)
      (detect_inverted_head_and_shoulders hsPositive) ∧
    List.Pairwise (fun a b : PMatch => a.ts ≠ b.ts)
      (detect_inverted_head_and_shoulders hsPositive) := by
  have h := matches_sorted hsPositive (by
    intro i j hij hjl
    have h5 : j < 5 := by simpa [hsPositive] using hjl
    interval_cases j <;> interval_cases i <;> decide)
  exact ⟨h.1 "Head and Shoulders", h.2⟩

/-- C10: for every series, each of the 10 catalog kinds other than Head and
Shoulders makes `detect_patterns` of `data_fetcher.py` dispatch to a method
that does not exist on `PatternDetector`, so the call raises
`AttributeError` instead of returning a result, while `detect_patterns` of
`main.py` silently returns an empty match list for every such kind. -/
theorem other_kinds_fail (data : List Bar) :
    (∀ p ∈ available_patterns, p ≠ "Head and Shoulders" →
      ∃ msg : String, detect_patterns_fetcher data [p] = Except.error msg) ∧
    (∀ p : String, p ≠ "Head and Shoulders" → detect_patterns_main data p = []) := by
  constructor
  · intro p hp hne
    fin_cases hp
    · exact absurd rfl hne
    all_goals exact ⟨_, rfl⟩
  · intro p hp
    simp [detect_patterns_main, hp]

/-- Witness for C10 at the Doji kind on the empty series. -/
theorem other_kinds_fail_witness :
    (∃ msg : String, detect_patterns_fetcher [] ["Doji"] = Except.error msg) ∧
    detect_patterns_main [] "Doji" = [] :=
  ⟨(other_kinds_fail []).1 "Doji" (by decide) (by decide),
    (other_kinds_fail []).2 "Doji" (by decide)⟩
